import Mathlib

/-!
Shallow embedding of `main.py` of the `majdi_excel` repository: a batch tool
that reads two tabular files, validates that they share a column set, and
produces five report tables (both inputs, both set differences, and a delta
analysis table).

Python runtime errors that the program does not catch (`IndexError` on `xs[0]`
of an empty list, `KeyError` on a missing dict key) are modeled by `Option`:
`none` is an uncaught exception that kills the run.  The `ValueError` raised by
the structure check and caught in `main` is modeled by `Except`.
-/

namespace MajdiExcel

/-- Cell values as read from spreadsheets or CSVs: text, numbers, or an empty
cell (Python `None`).  Python compares cell values with `==`/`!=` and performs
no type coercion between text and numbers, so `"5" != 5`; constructor
disjointness of this type models exactly that. -/
inductive Value where
  | str (s : String)
  | num (n : Int)
  | null
deriving DecidableEq

/-- A row is a Python dict from column name to cell value, in insertion order
(Python dicts preserve insertion order).  A dict produced by Python can never
have a duplicate key; theorems that depend on key uniqueness state it as a
`Nodup` hypothesis. -/
abbrev Row := List (String × Value)

/-- Python `row[column]`: `some v` on a hit; `none` models the `KeyError`
crash.  A Python dict has unique keys, so taking the first hit is exact. -/
def lookupCol : Row → String → Option Value
  | [], _ => none
  | (k, v) :: rest, c => if k = c then some v else lookupCol rest c

/-- Python `list(row.keys())`. -/
def keysOf (r : Row) : List String := r.map Prod.fst

/-- Total lookup used in specification statements only, defaulting to an empty
cell; it agrees with `lookupCol` whenever the key is present. -/
def valueAt (r : Row) (c : String) : Value := (lookupCol r c).getD .null

/-- Python `==` on two dicts: every key of either side is present on the other
with an equal value. -/
def dictBeq (a b : Row) : Bool :=
  (a.all fun p => lookupCol b p.1 == some p.2) &&
    (b.all fun p => lookupCol a p.1 == some p.2)

/-- Full-row equality as the specification states it ("equal across all column
values"): a propositional rendering of Python dict equality. -/
def RowEq (a b : Row) : Prop :=
  (∀ p ∈ a, lookupCol b p.1 = some p.2) ∧ (∀ p ∈ b, lookupCol a p.1 = some p.2)

instance (a b : Row) : Decidable (RowEq a b) := by
  unfold RowEq; infer_instance

/-- The accepted file extensions (`POSSIBLE_SUFFIXES` in the source). -/
def POSSIBLE_SUFFIXES : List String := [".xlsx", ".csv"]

/-- ASCII lower-casing of one character; Python `str.lower` restricted to the
ASCII range, which covers every extension the program compares against. -/
def lowerChar (c : Char) : Char :=
  if 'A' ≤ c ∧ c ≤ 'Z' then Char.ofNat (c.toNat + 32) else c

/-- Python `suffix.lower()` on a file extension. -/
def lowerStr (s : String) : String := ⟨s.data.map lowerChar⟩

/-- A command-line argument as the filesystem presents it to the program:
whether `Path(arg).is_file()` holds, the extension `Path(arg).suffix` (with its
leading dot, in original case), and the table its contents parse to via the
reader (`extract_data_from_xlsx` / `extract_data_from_csv`, thin I/O adapters
not modeled further). -/
structure ArgFile where
  is_file : Bool
  suffix : String
  data : List Row
deriving DecidableEq

/-- `extract_files_from_args`: keep the arguments that are existing regular
files with an accepted extension (compared lower-cased), preserving order. -/
def extract_files_from_args : List ArgFile → List ArgFile
  | [] => []
  | arg :: args =>
    if !arg.is_file then extract_files_from_args args
    else if !(POSSIBLE_SUFFIXES.contains (lowerStr arg.suffix)) then
      extract_files_from_args args
    else arg :: extract_files_from_args args

/-- The reading step of `extract_data_from_files`: the reader function is
looked up by name, `globals()["extract_data_from_" + file.suffix.replace(".", "")]`,
with the ORIGINAL-case suffix — a `KeyError` (crash, modeled `none`) unless
the extension is exactly `.xlsx` or `.csv`.  The parsing itself is a thin I/O
adapter whose result is the `data` field. -/
def extract_data (f : ArgFile) : Option (List Row) :=
  if POSSIBLE_SUFFIXES.contains f.suffix then some f.data else none

/-- `check_table_structure_integrity`: the symmetric difference of the key sets
of the two FIRST rows (`file_a[0].keys() ^ file_b[0].keys()`).  When non-empty
it raises `ValueError` (modeled as `.error` carrying `len(diff)` and the set of
mismatched names; the printed name order is Python set iteration order, hence a
`Finset`).  `none` models the uncaught `IndexError` from `file_a[0]` /
`file_b[0]` when a table has zero data rows. -/
def check_table_structure_integrity (file_a file_b : List Row) :
    Option (Except (Nat × Finset String) Unit) := do
  let ra ← file_a.head?
  let rb ← file_b.head?
  let diff := symmDiff (keysOf ra).toFinset (keysOf rb).toFinset
  if diff = ∅ then pure (.ok ()) else pure (.error (diff.card, diff))

/-- `_extract_difference`: the rows of the left table having no `==`-equal row
in the right table, in the left table's order. -/
def extract_difference (file_left file_right : List Row) : List Row :=
  file_left.filter fun row => !(file_right.any fun r => dictBeq row r)

/-- Loop of `_extract_common_by_first_column`: Python `zip` walks both tables
in lock-step and stops at the shorter; a pair is kept exactly when the two
first-column values compare equal.  `none` models a `KeyError` on either
lookup. -/
def extractCommonLoop (first_column : String) :
    List Row → List Row → Option (List Row × List Row)
  | [], _ => some ([], [])
  | _ :: _, [] => some ([], [])
  | row_left :: ls, row_right :: rs => do
    let vl ← lookupCol row_left first_column
    let vr ← lookupCol row_right first_column
    let (cl, cr) ← extractCommonLoop first_column ls rs
    if vl = vr then pure (row_left :: cl, row_right :: cr) else pure (cl, cr)

/-- `_extract_common_by_first_column`: the key column is the first key of the
left table's first row (`list(file_left[0].keys())[0]`).  `none` models the
`IndexError` when the left table is empty or its first row has no columns. -/
def extract_common_by_first_column (file_left file_right : List Row) :
    Option (List Row × List Row) := do
  let first ← file_left.head?
  let first_column ← (keysOf first).head?
  extractCommonLoop first_column file_left file_right

/-- `_build_column_headers`: per column, the column name twice then the
`"Delta_"`-marked name, concatenated across columns. -/
def build_column_headers : List String → List String
  | [] => []
  | column :: columns =>
    column :: column :: ("Delta_" ++ column) :: build_column_headers columns

/-- Python `int(row_a_value != row_b_value)`. -/
def isDifferent (a b : Value) : Nat := if a = b then 0 else 1

/-- Inner loop of `make_tab_5_analysis` over the columns of one aligned pair:
builds the merged delta row `value_a, value_b, str(is_different)` per column
and threads the `total_differences` defaultdict (modeled as a function that is
zero by default).  `none` models a `KeyError`. -/
def mergeAndCount (row_a row_b : Row) :
    List String → (String → Nat) → Option (List Value × (String → Nat))
  | [], totals => some ([], totals)
  | column :: columns, totals => do
    let row_a_value ← lookupCol row_a column
    let row_b_value ← lookupCol row_b column
    let d := isDifferent row_a_value row_b_value
    let (rest, totals') ← mergeAndCount row_a row_b columns
      (fun k => if k = column then totals k + d else totals k)
    pure (row_a_value :: row_b_value :: Value.str (toString d) :: rest, totals')

/-- Outer loop of `make_tab_5_analysis` over the aligned pairs
(`for row_a, row_b in zip(*common)`). -/
def tab5Rows (columns : List String) :
    List (Row × Row) → (String → Nat) →
      Option (List (List Value) × (String → Nat))
  | [], totals => some ([], totals)
  | (row_a, row_b) :: pairs, totals => do
    let (merged, totals') ← mergeAndCount row_a row_b columns totals
    let (rest, totalsEnd) ← tab5Rows columns pairs totals'
    pure (merged :: rest, totalsEnd)

/-- The totals row of `make_tab_5_analysis`: per column, two empty cells then
the stringified accumulated difference count. -/
def totalsRowOf : List String → (String → Nat) → List Value
  | [], _ => []
  | column :: columns, totals =>
    Value.str ("") :: Value.str ("") :: Value.str (toString (totals column)) ::
      totalsRowOf columns totals

/-- The delta analysis table written to `out/tab_5.csv`: the header row, one
merged row per aligned pair, and the totals row. -/
structure Tab5 where
  header : List String
  rows : List (List Value)
  totals : List Value
deriving DecidableEq

/-- Body of `make_tab_5_analysis` after the alignment step: the columns come
from the FIRST aligned left row (`list(common[0][0].keys())`), so `none` models
the `IndexError` when no pair aligned, besides any `KeyError` in the loops. -/
def buildTab5 (common_left common_right : List Row) : Option Tab5 := do
  let first ← common_left.head?
  let columns := keysOf first
  let headers := build_column_headers columns
  let (rows, totals) ←
    tab5Rows columns (common_left.zip common_right) (fun _ => 0)
  pure ⟨headers, rows, totalsRowOf columns totals⟩

/-- `make_tab_5_analysis` end to end: positional alignment, then the delta
table. -/
def make_tab_5_analysis (file_a file_b : List Row) : Option Tab5 := do
  let (common_left, common_right) ←
    extract_common_by_first_column file_a file_b
  buildTab5 common_left common_right

/-- `_write_csv` reduced to its one observable data behaviour:
`csv.DictWriter(f, fieldnames=data[0].keys())` raises `IndexError` when the
table is empty; otherwise the written table is the data itself. -/
def writeCsv (data : List Row) : Option (List Row) := do
  let _ ← data.head?
  pure data

/-- The five artifacts of one successful run: table A, table B, A minus B,
B minus A, and the delta analysis table. -/
structure Tabs where
  tab1 : List Row
  tab2 : List Row
  tab3 : List Row
  tab4 : List Row
  tab5 : Tab5
deriving DecidableEq

/-- Observable outcome of `main`: exit status 2 (wrong file count, no output),
exit status 1 (structure mismatch: the printed count and column names, no
output), or exit status 0 with the five produced tables.  An uncaught
exception (`none` at the `Option` layer) is none of these. -/
inductive MainOutcome where
  | exit2
  | exit1 (count : Nat) (columns : Finset String)
  | exit0 (tabs : Tabs)
deriving DecidableEq

/-- The five `make_tab_*` calls of `main`, in program order; `none` models any
uncaught exception, which kills the run before `out/out.xlsx` exists. -/
def runTabs (file_a file_b : List Row) : Option Tabs := do
  let tab1 ← writeCsv file_a
  let tab2 ← writeCsv file_b
  let tab3 ← writeCsv (extract_difference file_a file_b)
  let tab4 ← writeCsv (extract_difference file_b file_a)
  let tab5 ← make_tab_5_analysis file_a file_b
  pure ⟨tab1, tab2, tab3, tab4, tab5⟩

/-- `main`: filter the arguments, require exactly two files (else exit 2),
read both files (name-based reader dispatch — crash on a non-lower-case
extension), run the structure check (`ValueError` caught, printed, exit 1),
then produce the five tables and exit 0. -/
def main (argv : List ArgFile) : Option MainOutcome :=
  match extract_files_from_args argv with
  | [file_a, file_b] => do
    let data_a ← extract_data file_a
    let data_b ← extract_data file_b
    let check ← check_table_structure_integrity data_a data_b
    match check with
    | .error (n, cols) => pure (.exit1 n cols)
    | .ok () => do
      let tabs ← runTabs data_a data_b
      pure (.exit0 tabs)
  | _ => some .exit2

/-- Specification-side closed form of one delta row: per column in declared
order, the two values and the stringified difference flag, flattened. -/
def deltaRowSpec (columns : List String) (row_a row_b : Row) : List Value :=
  columns.flatMap fun c =>
    [valueAt row_a c, valueAt row_b c,
     Value.str (toString (isDifferent (valueAt row_a c) (valueAt row_b c)))]

/-- Specification-side per-column difference count: the number of aligned
pairs whose two values at the column differ (native inequality on `Value`). -/
def diffCount (pairs : List (Row × Row)) (c : String) : Nat :=
  pairs.countP fun p => decide (valueAt p.1 c ≠ valueAt p.2 c)

/-! Part: Basic lemmas about rows and lookups -/

theorem lookupCol_isSome_of_mem (r : Row) (c : String) (h : c ∈ keysOf r) :
    (lookupCol r c).isSome = true := by
  induction r with
  | nil => simp [keysOf] at h
  | cons p rest ih =>
    obtain ⟨k, v⟩ := p
    simp only [keysOf, List.map_cons, List.mem_cons] at h
    by_cases hc : k = c
    · simp [lookupCol, hc]
    · rcases h with h | h
      · exact absurd h.symm hc
      · simpa [lookupCol, hc] using ih (by simpa [keysOf] using h)

theorem lookupCol_eq_of_mem (r : Row) (k : String) (v : Value)
    (hnd : (keysOf r).Nodup) (h : (k, v) ∈ r) : lookupCol r k = some v := by
  induction r with
  | nil => simp at h
  | cons p rest ih =>
    obtain ⟨k', v'⟩ := p
    simp only [keysOf, List.map_cons, List.nodup_cons] at hnd
    rcases List.mem_cons.mp h with h | h
    · obtain ⟨rfl, rfl⟩ := Prod.mk.injEq .. ▸ h
      simp [lookupCol]
    · have hk : k ∈ keysOf rest := List.mem_map_of_mem Prod.fst h
      have hne : k' ≠ k := fun he => hnd.1 (he ▸ hk)
      simpa [lookupCol, hne] using ih hnd.2 h

theorem dictBeq_iff (a b : Row) : dictBeq a b = true ↔ RowEq a b := by
  unfold dictBeq RowEq
  simp [List.all_eq_true]

theorem dictBeq_self (a : Row) (h : (keysOf a).Nodup) : dictBeq a a = true := by
  rw [dictBeq_iff]
  exact ⟨fun p hp => lookupCol_eq_of_mem a p.1 p.2 h (by simpa using hp),
    fun p hp => lookupCol_eq_of_mem a p.1 p.2 h (by simpa using hp)⟩

theorem not_any_dictBeq_eq (R : List Row) (row : Row) :
    (!(R.any fun r => dictBeq row r)) = decide (∀ r ∈ R, ¬ RowEq row r) := by
  by_cases h : ∀ r ∈ R, ¬ RowEq row r
  · have : R.any (fun r => dictBeq row r) = false := by
      rw [List.any_eq_false]
      exact fun r hr hb => h r hr ((dictBeq_iff row r).mp hb)
    simpa [this] using h
  · have : R.any (fun r => dictBeq row r) = true := by
      rw [List.any_eq_true]
      push_neg at h
      obtain ⟨r, hr, hb⟩ := h
      exact ⟨r, hr, (dictBeq_iff row r).mpr hb⟩
    simp [this, h]

/-! Part: Claims C4 and C8: the Set-Difference Extractor -/

/-- C4: `_extract_difference` returns exactly the rows of the left table, in
the left table's original order, that have no fully-equal row (equal value at
every column, on both key sets) in the right table; on the spec's example
tables it keeps exactly the `{id:2}` row of each side. -/
theorem extract_difference_spec (L R : List Row) :
    (extract_difference L R).Sublist L ∧
    extract_difference L R
      = L.filter (fun row => decide (∀ r ∈ R, ¬ RowEq row r)) ∧
    extract_difference
        [[("id", Value.num 1), ("v", Value.str ("x"))],
         [("id", Value.num 2), ("v", Value.str ("y"))]]
        [[("id", Value.num 1), ("v", Value.str ("x"))],
         [("id", Value.num 2), ("v", Value.str ("z"))]]
      = [[("id", Value.num 2), ("v", Value.str ("y"))]] ∧
    extract_difference
        [[("id", Value.num 1), ("v", Value.str ("x"))],
         [("id", Value.num 2), ("v", Value.str ("z"))]]
        [[("id", Value.num 1), ("v", Value.str ("x"))],
         [("id", Value.num 2), ("v", Value.str ("y"))]]
      = [[("id", Value.num 2), ("v", Value.str ("z"))]] := by
  refine ⟨List.filter_sublist L, ?_, by decide, by decide⟩
  exact List.filter_congr fun row _ => not_any_dictBeq_eq R row

/-- C8: the Set-Difference Extractor applied to a table against itself returns
the empty sequence (rows of a Python table are dicts, hence have no duplicate
column name, stated as the `Nodup` hypothesis). -/
theorem extract_difference_self (A : List Row)
    (hA : ∀ row ∈ A, (keysOf row).Nodup) :
    extract_difference A A = [] := by
  unfold extract_difference
  rw [List.filter_eq_nil_iff]
  intro row hrow
  simp only [Bool.not_eq_true', List.any_eq_false]
  exact fun h => h row hrow (dictBeq_self row (hA row hrow))

/-- Witness for C8 at the spec's concrete table. -/
theorem extract_difference_self_witness :
    extract_difference
        [[("id", Value.num 1), ("v", Value.str ("x"))],
         [("id", Value.num 2), ("v", Value.str ("y"))]]
        [[("id", Value.num 1), ("v", Value.str ("x"))],
         [("id", Value.num 2), ("v", Value.str ("y"))]]
      = [] :=
  extract_difference_self
    [[("id", Value.num 1), ("v", Value.str ("x"))],
     [("id", Value.num 2), ("v", Value.str ("y"))]] (by decide)

/-! Part: Claim C3: the Positional Pair Extractor -/

theorem extractCommonLoop_eq (c : String) :
    ∀ (l r : List Row),
      (∀ p ∈ l.zip r,
        (lookupCol p.1 c).isSome = true ∧ (lookupCol p.2 c).isSome = true) →
      extractCommonLoop c l r =
        some
          (((l.zip r).filter fun p => valueAt p.1 c == valueAt p.2 c).map
            Prod.fst,
          ((l.zip r).filter fun p => valueAt p.1 c == valueAt p.2 c).map
            Prod.snd)
  | [], r, _ => by cases r <;> simp [extractCommonLoop]
  | _ :: _, [], _ => by simp [extractCommonLoop]
  | a :: ls, b :: rs, h => by
    have hab := h (a, b) (by simp)
    obtain ⟨va, hva⟩ := Option.isSome_iff_exists.mp hab.1
    obtain ⟨vb, hvb⟩ := Option.isSome_iff_exists.mp hab.2
    have ih := extractCommonLoop_eq c ls rs fun p hp => h p (by simp [hp])
    by_cases hv : va = vb
    · simp [extractCommonLoop, hva, hvb, ih, List.filter_cons, valueAt, hv]
    · simp [extractCommonLoop, hva, hvb, ih, List.filter_cons, valueAt, hv]

/-- C3: on two tables sharing a column set (so the first declared column of the
left table's first row is a key of every row on both sides), the Positional
Pair Extractor walks both tables in lock-step up to the shorter length
(`List.zip`), keeps an index exactly when the two rows' values in the first
declared column are equal, silently skips it otherwise, and returns two
equal-length sequences whose i-th elements are the two components of the same
kept pair (hence index-synchronized). -/
theorem extract_common_spec (file_left file_right : List Row) (r0 : Row)
    (c0 : String)
    (hhead : file_left.head? = some r0)
    (hc0 : (keysOf r0).head? = some c0)
    (hkL : ∀ row ∈ file_left, c0 ∈ keysOf row)
    (hkR : ∀ row ∈ file_right, c0 ∈ keysOf row) :
    ∃ pairs : List (Row × Row),
      pairs = (file_left.zip file_right).filter
        (fun p => valueAt p.1 c0 == valueAt p.2 c0) ∧
      extract_common_by_first_column file_left file_right
        = some (pairs.map Prod.fst, pairs.map Prod.snd) ∧
      (pairs.map Prod.fst).length = (pairs.map Prod.snd).length := by
  refine ⟨_, rfl, ?_, by simp⟩
  have hloop := extractCommonLoop_eq c0 file_left file_right fun p hp =>
    ⟨lookupCol_isSome_of_mem p.1 c0 (hkL p.1 (List.of_mem_zip hp).1),
     lookupCol_isSome_of_mem p.2 c0 (hkR p.2 (List.of_mem_zip hp).2)⟩
  simp [extract_common_by_first_column, hhead, hc0, hloop]

/-- Witness for C3 at the spec's worked example: indices 0 and 2 align, the
mismatched index 1 is dropped. -/
theorem extract_common_spec_witness :
    ∃ pairs : List (Row × Row),
      pairs = (([[("id", Value.num 1)], [("id", Value.num 2)],
                 [("id", Value.num 3)]] : List Row).zip
                ([[("id", Value.num 1)], [("id", Value.num 9)],
                  [("id", Value.num 3)]] : List Row)).filter
        (fun p => valueAt p.1 "id" == valueAt p.2 "id") ∧
      extract_common_by_first_column
          [[("id", Value.num 1)], [("id", Value.num 2)], [("id", Value.num 3)]]
          [[("id", Value.num 1)], [("id", Value.num 9)], [("id", Value.num 3)]]
        = some (pairs.map Prod.fst, pairs.map Prod.snd) ∧
      (pairs.map Prod.fst).length = (pairs.map Prod.snd).length :=
  extract_common_spec
    [[("id", Value.num 1)], [("id", Value.num 2)], [("id", Value.num 3)]]
    [[("id", Value.num 1)], [("id", Value.num 9)], [("id", Value.num 3)]]
    [("id", Value.num 1)] "id" (by decide) (by decide) (by decide) (by decide)

/-! Part: Lemmas about the Delta Table Builder -/

theorem build_column_headers_eq_flatMap (columns : List String) :
    build_column_headers columns
      = columns.flatMap fun c => [c, c, "Delta_" ++ c] := by
  induction columns with
  | nil => simp [build_column_headers]
  | cons c cs ih => simp [build_column_headers, ih]

theorem build_column_headers_length (columns : List String) :
    (build_column_headers columns).length = 3 * columns.length := by
  induction columns with
  | nil => simp [build_column_headers]
  | cons c cs ih => simp [build_column_headers, ih]; ring

theorem mergeAndCount_eq (row_a row_b : Row) :
    ∀ (columns : List String) (totals : String → Nat),
      (∀ c ∈ columns, (lookupCol row_a c).isSome = true) →
      (∀ c ∈ columns, (lookupCol row_b c).isSome = true) →
      ∃ totals',
        mergeAndCount row_a row_b columns totals
          = some (deltaRowSpec columns row_a row_b, totals') ∧
        ∀ k, totals' k = totals k + columns.count k *
          isDifferent (valueAt row_a k) (valueAt row_b k)
  | [], totals, _, _ =>
    ⟨totals, by simp [mergeAndCount, deltaRowSpec], fun k => by simp⟩
  | c :: cs, totals, hA, hB => by
    obtain ⟨va, hva⟩ := Option.isSome_iff_exists.mp (hA c (by simp))
    obtain ⟨vb, hvb⟩ := Option.isSome_iff_exists.mp (hB c (by simp))
    obtain ⟨t', ht', htk⟩ := mergeAndCount_eq row_a row_b cs
      (fun k => if k = c then totals k + isDifferent va vb else totals k)
      (fun x hx => hA x (by simp [hx])) (fun x hx => hB x (by simp [hx]))
    refine ⟨t', ?_, ?_⟩
    · simp [mergeAndCount, hva, hvb, ht', deltaRowSpec, valueAt]
    · intro k
      rw [htk k]
      by_cases hk : k = c
      · subst hk
        simp [List.count_cons, valueAt, hva, hvb]
        ring
      · have : c ≠ k := fun he => hk he.symm
        simp [List.count_cons, hk, this]

theorem tab5Rows_eq (columns : List String) :
    ∀ (pairs : List (Row × Row)) (totals : String → Nat),
      (∀ p ∈ pairs,
        (∀ c ∈ columns, (lookupCol p.1 c).isSome = true) ∧
        (∀ c ∈ columns, (lookupCol p.2 c).isSome = true)) →
      ∃ totalsEnd,
        tab5Rows columns pairs totals
          = some (pairs.map (fun p => deltaRowSpec columns p.1 p.2),
                  totalsEnd) ∧
        ∀ k, totalsEnd k = totals k + columns.count k * diffCount pairs k
  | [], totals, _ =>
    ⟨totals, by simp [tab5Rows], fun k => by simp [diffCount]⟩
  | (row_a, row_b) :: pairs, totals, h => by
    obtain ⟨t', ht', htk⟩ := mergeAndCount_eq row_a row_b columns totals
      (h (row_a, row_b) (by simp)).1 (h (row_a, row_b) (by simp)).2
    obtain ⟨tE, htE, htEk⟩ := tab5Rows_eq columns pairs t'
      (fun p hp => h p (by simp [hp]))
    refine ⟨tE, ?_, ?_⟩
    · simp [tab5Rows, ht', htE]
    · intro k
      rw [htEk k, htk k]
      have hd : isDifferent (valueAt row_a k) (valueAt row_b k)
          = if decide (valueAt row_a k ≠ valueAt row_b k) then 1 else 0 := by
        by_cases he : valueAt row_a k = valueAt row_b k <;>
          simp [isDifferent, he]
      have hc : diffCount ((row_a, row_b) :: pairs) k
          = diffCount pairs k
            + if decide (valueAt row_a k ≠ valueAt row_b k) then 1 else 0 := by
        simp [diffCount, List.countP_cons]
      rw [hd, hc]
      ring

theorem totalsRowOf_congr :
    ∀ (columns : List String) (t t' : String → Nat),
      (∀ c ∈ columns, t c = t' c) →
      totalsRowOf columns t = totalsRowOf columns t'
  | [], _, _, _ => rfl
  | c :: cs, t, t', h => by
    simp [totalsRowOf, h c (by simp),
      totalsRowOf_congr cs t t' fun x hx => h x (by simp [hx])]

theorem totalsRowOf_eq_flatMap (columns : List String) (t : String → Nat) :
    totalsRowOf columns t
      = columns.flatMap fun c =>
          [Value.str (""), Value.str (""), Value.str (toString (t c))] := by
  induction columns with
  | nil => simp [totalsRowOf]
  | cons c cs ih => simp [totalsRowOf, ih]

theorem totalsRowOf_length (columns : List String) (t : String → Nat) :
    (totalsRowOf columns t).length = 3 * columns.length := by
  induction columns with
  | nil => simp [totalsRowOf]
  | cons c cs ih => simp [totalsRowOf, ih]; ring

/-! Part: Claims C1 and C2: the Delta Table Builder -/

/-- C1: on aligned, equal-length row sequences sharing a column set (columns
declared by the first aligned row, present in every row), the Delta Table
Builder produces the header `[C, C, "Delta_C"]` concatenated across columns in
declared order, and one delta row per aligned pair holding, per column in
declared order, the value from A, the value from B, and the stringified
difference flag (`"1"` when the values differ, `"0"` otherwise), flattened. -/
theorem buildTab5_spec (common_left common_right : List Row) (r0 : Row)
    (hhead : common_left.head? = some r0)
    (hlen : common_left.length = common_right.length)
    (hkL : ∀ row ∈ common_left, ∀ c ∈ keysOf r0,
      (lookupCol row c).isSome = true)
    (hkR : ∀ row ∈ common_right, ∀ c ∈ keysOf r0,
      (lookupCol row c).isSome = true) :
    ∃ t : Tab5,
      buildTab5 common_left common_right = some t ∧
      t.header = (keysOf r0).flatMap (fun c => [c, c, "Delta_" ++ c]) ∧
      t.rows = (common_left.zip common_right).map
        (fun p => deltaRowSpec (keysOf r0) p.1 p.2) ∧
      t.rows.length = common_left.length := by
  obtain ⟨tE, htE, _⟩ := tab5Rows_eq (keysOf r0)
    (common_left.zip common_right) (fun _ => 0) (fun p hp =>
      ⟨hkL p.1 (List.of_mem_zip hp).1, hkR p.2 (List.of_mem_zip hp).2⟩)
  refine ⟨⟨build_column_headers (keysOf r0),
      (common_left.zip common_right).map
        (fun p => deltaRowSpec (keysOf r0) p.1 p.2),
      totalsRowOf (keysOf r0) tE⟩, ?_, ?_, rfl, ?_⟩
  · simp [buildTab5, hhead, htE]
  · exact build_column_headers_eq_flatMap (keysOf r0)
  · simp [List.length_zip, hlen]

/-- Witness for C1 at the spec's worked example pair
`(A: {id:1, v:10}, B: {id:1, v:20})`. -/
theorem buildTab5_spec_witness :
    ∃ t : Tab5,
      buildTab5 [[("id", Value.num 1), ("v", Value.num 10)]]
          [[("id", Value.num 1), ("v", Value.num 20)]] = some t ∧
      t.header = (keysOf [("id", Value.num 1), ("v", Value.num 10)]).flatMap
        (fun c => [c, c, "Delta_" ++ c]) ∧
      t.rows = (([[("id", Value.num 1), ("v", Value.num 10)]] : List Row).zip
          ([[("id", Value.num 1), ("v", Value.num 20)]] : List Row)).map
        (fun p => deltaRowSpec (keysOf [("id", Value.num 1),
          ("v", Value.num 10)]) p.1 p.2) ∧
      t.rows.length
        = ([[("id", Value.num 1), ("v", Value.num 10)]] : List Row).length :=
  buildTab5_spec [[("id", Value.num 1), ("v", Value.num 10)]]
    [[("id", Value.num 1), ("v", Value.num 20)]]
    [("id", Value.num 1), ("v", Value.num 10)]
    (by decide) (by decide) (by decide) (by decide)

/-- C2: on aligned, equal-length row sequences sharing a duplicate-free column
set, the totals row holds, per column in declared order, two empty cells then
the stringified count of aligned pairs whose two values at that column differ;
the difference test is native inequality without type coercion, so the string
`"5"` counts as different from the number `5`. -/
theorem buildTab5_totals_spec (common_left common_right : List Row) (r0 : Row)
    (hhead : common_left.head? = some r0)
    (hnd : (keysOf r0).Nodup)
    (hlen : common_left.length = common_right.length)
    (hkL : ∀ row ∈ common_left, ∀ c ∈ keysOf r0,
      (lookupCol row c).isSome = true)
    (hkR : ∀ row ∈ common_right, ∀ c ∈ keysOf r0,
      (lookupCol row c).isSome = true) :
    (∃ t : Tab5,
      buildTab5 common_left common_right = some t ∧
      t.totals = (keysOf r0).flatMap fun c =>
        [Value.str (""), Value.str (""),
         Value.str
          (toString (diffCount (common_left.zip common_right) c))]) ∧
    isDifferent (Value.str ("5")) (Value.num 5) = 1 := by
  obtain ⟨tE, htE, htEk⟩ := tab5Rows_eq (keysOf r0)
    (common_left.zip common_right) (fun _ => 0) (fun p hp =>
      ⟨hkL p.1 (List.of_mem_zip hp).1, hkR p.2 (List.of_mem_zip hp).2⟩)
  refine ⟨⟨⟨build_column_headers (keysOf r0),
      (common_left.zip common_right).map
        (fun p => deltaRowSpec (keysOf r0) p.1 p.2),
      totalsRowOf (keysOf r0) tE⟩, ?_, ?_⟩, by decide⟩
  · simp [buildTab5, hhead, htE]
  · show totalsRowOf (keysOf r0) tE = _
    rw [totalsRowOf_congr (keysOf r0) tE
      (fun c => diffCount (common_left.zip common_right) c) ?_,
      totalsRowOf_eq_flatMap]
    intro c hc
    rw [htEk c, List.count_eq_one_of_mem hnd hc]
    simp

/-- Witness for C2: one aligned pair differing exactly in column `v`; the
totals are `0` for `id` and `1` for `v`, matching the spec's example. -/
theorem buildTab5_totals_spec_witness :
    (∃ t : Tab5,
      buildTab5 [[("id", Value.num 1), ("v", Value.num 10)]]
          [[("id", Value.num 1), ("v", Value.num 20)]] = some t ∧
      t.totals = (keysOf [("id", Value.num 1), ("v", Value.num 10)]).flatMap
        fun c =>
          [Value.str (""), Value.str (""),
           Value.str (toString (diffCount
            (([[("id", Value.num 1), ("v", Value.num 10)]] : List Row).zip
              ([[("id", Value.num 1), ("v", Value.num 20)]] : List Row))
            c))]) ∧
    isDifferent (Value.str ("5")) (Value.num 5) = 1 :=
  buildTab5_totals_spec [[("id", Value.num 1), ("v", Value.num 10)]]
    [[("id", Value.num 1), ("v", Value.num 20)]]
    [("id", Value.num 1), ("v", Value.num 10)]
    (by decide) (by decide) (by decide) (by decide) (by decide)

/-! Part: Claim C10: rectangularity of the delta analysis table -/

theorem mergeAndCount_length (row_a row_b : Row) :
    ∀ (columns : List String) (totals : String → Nat) (merged : List Value)
      (t' : String → Nat),
      mergeAndCount row_a row_b columns totals = some (merged, t') →
      merged.length = 3 * columns.length
  | [], _, _, _, h => by
    simp [mergeAndCount] at h
    simp [← h.1]
  | c :: cs, totals, merged, t', h => by
    cases hva : lookupCol row_a c with
    | none => simp [mergeAndCount, hva] at h
    | some va =>
      cases hvb : lookupCol row_b c with
      | none => simp [mergeAndCount, hva, hvb] at h
      | some vb =>
        cases hmc : mergeAndCount row_a row_b cs
            (fun k => if k = c then totals k + isDifferent va vb
              else totals k) with
        | none => simp [mergeAndCount, hva, hvb, hmc] at h
        | some pr =>
          have hrec := mergeAndCount_length row_a row_b cs _ pr.1 pr.2
            (by simpa using hmc)
          simp [mergeAndCount, hva, hvb, hmc] at h
          simp [← h.1, hrec]
          ring

theorem tab5Rows_row_length (columns : List String) :
    ∀ (pairs : List (Row × Row)) (totals : String → Nat)
      (rows : List (List Value)) (tE : String → Nat),
      tab5Rows columns pairs totals = some (rows, tE) →
      ∀ row ∈ rows, row.length = 3 * columns.length
  | [], _, rows, _, h => by
    simp [tab5Rows] at h
    simp [h.1]
  | (row_a, row_b) :: pairs, totals, rows, tE, h => by
    cases hmc : mergeAndCount row_a row_b columns totals with
    | none => simp [tab5Rows, hmc] at h
    | some pr =>
      cases hrest : tab5Rows columns pairs pr.2 with
      | none => simp [tab5Rows, hmc, hrest] at h
      | some prs =>
        have hone := mergeAndCount_length row_a row_b columns totals pr.1 pr.2
          (by simpa using hmc)
        have hrec := tab5Rows_row_length columns pairs pr.2 prs.1 prs.2
          (by simpa using hrest)
        simp [tab5Rows, hmc, hrest] at h
        intro row hrow
        rw [← h.1] at hrow
        rcases List.mem_cons.mp hrow with hrow | hrow
        · exact hrow ▸ hone
        · exact hrec row hrow

/-- C10: whenever the Delta Table Builder produces a table, every one of its
rows — the header, each delta row, and the totals row — has length exactly
three times the number of columns of the input tables (the column count of the
first aligned row), so the table is rectangular. -/
theorem tab5_rectangular (common_left common_right : List Row) (r0 : Row)
    (t : Tab5)
    (hhead : common_left.head? = some r0)
    (hbuild : buildTab5 common_left common_right = some t) :
    t.header.length = 3 * r0.length ∧
    (∀ row ∈ t.rows, row.length = 3 * r0.length) ∧
    t.totals.length = 3 * r0.length := by
  have hlen : (keysOf r0).length = r0.length := List.length_map r0 Prod.fst
  cases hrows : tab5Rows (keysOf r0)
      (common_left.zip common_right) (fun _ => 0) with
  | none => simp [buildTab5, hhead, hrows] at hbuild
  | some pr =>
    have ht : t = ⟨build_column_headers (keysOf r0), pr.1,
        totalsRowOf (keysOf r0) pr.2⟩ := by
      have := hbuild
      simp [buildTab5, hhead, hrows] at this
      exact this.symm
    subst ht
    refine ⟨?_, ?_, ?_⟩
    · rw [build_column_headers_length, hlen]
    · intro row hrow
      rw [← hlen]
      exact tab5Rows_row_length (keysOf r0) (common_left.zip common_right)
        (fun _ => 0) pr.1 pr.2 (by simpa using hrows) row hrow
    · rw [totalsRowOf_length, hlen]

/-- Witness for C10 on a concrete two-column build. -/
theorem tab5_rectangular_witness :
    (Tab5.mk ["id", "id", "Delta_id", "v", "v", "Delta_v"]
        [[Value.num 1, Value.num 1, Value.str ("0"),
          Value.num 10, Value.num 20, Value.str ("1")]]
        [Value.str (""), Value.str (""), Value.str ("0"),
         Value.str (""), Value.str (""), Value.str ("1")]).header.length
      = 3 * ([("id", Value.num 1), ("v", Value.num 10)] : Row).length ∧
    (∀ row ∈ (Tab5.mk ["id", "id", "Delta_id", "v", "v", "Delta_v"]
        [[Value.num 1, Value.num 1, Value.str ("0"),
          Value.num 10, Value.num 20, Value.str ("1")]]
        [Value.str (""), Value.str (""), Value.str ("0"),
         Value.str (""), Value.str (""), Value.str ("1")]).rows,
      row.length = 3 * ([("id", Value.num 1), ("v", Value.num 10)] : Row).length) ∧
    (Tab5.mk ["id", "id", "Delta_id", "v", "v", "Delta_v"]
        [[Value.num 1, Value.num 1, Value.str ("0"),
          Value.num 10, Value.num 20, Value.str ("1")]]
        [Value.str (""), Value.str (""), Value.str ("0"),
         Value.str (""), Value.str (""), Value.str ("1")]).totals.length
      = 3 * ([("id", Value.num 1), ("v", Value.num 10)] : Row).length :=
  tab5_rectangular [[("id", Value.num 1), ("v", Value.num 10)]]
    [[("id", Value.num 1), ("v", Value.num 20)]]
    [("id", Value.num 1), ("v", Value.num 10)] _ (by decide) (by decide)

/-! Part: Claim C5: the Structure Validator and exit status 1 -/

theorem main_two_files_raw (argv : List ArgFile) (f1 f2 : ArgFile)
    (h : extract_files_from_args argv = [f1, f2]) :
    main argv = (do
      let data_a ← extract_data f1
      let data_b ← extract_data f2
      let check ← check_table_structure_integrity data_a data_b
      match check with
      | .error (n, cols) => pure (.exit1 n cols)
      | .ok () => do
        let tabs ← runTabs data_a data_b
        pure (.exit0 tabs)) := by
  unfold main
  rw [h]

theorem main_two_files (argv : List ArgFile) (f1 f2 : ArgFile)
    (h : extract_files_from_args argv = [f1, f2])
    (hs1 : POSSIBLE_SUFFIXES.contains f1.suffix = true)
    (hs2 : POSSIBLE_SUFFIXES.contains f2.suffix = true) :
    main argv = (do
      let check ← check_table_structure_integrity f1.data f2.data
      match check with
      | .error (n, cols) => pure (.exit1 n cols)
      | .ok () => do
        let tabs ← runTabs f1.data f2.data
        pure (.exit0 tabs)) := by
  have hm1 : f1.suffix ∈ POSSIBLE_SUFFIXES := by simpa using hs1
  have hm2 : f2.suffix ∈ POSSIBLE_SUFFIXES := by simpa using hs2
  rw [main_two_files_raw argv f1 f2 h]
  simp [extract_data, hm1, hm2]

/-- C5: with two non-empty tables selected, the validator computes the
symmetric difference of the two column sets (the key sets of the two first
rows).  When it is non-empty, `main` stops with exit status 1 carrying exactly
the mismatch count and the mismatched names, and produces no tables (the
`exit1` outcome is reached before any `make_tab_*` call).  When it is empty,
the check succeeds with no observable effect (`.ok ()`). -/
theorem structure_validator_spec (argv : List ArgFile) (f1 f2 : ArgFile)
    (ra rb : Row)
    (hargs : extract_files_from_args argv = [f1, f2])
    (hs1 : POSSIBLE_SUFFIXES.contains f1.suffix = true)
    (hs2 : POSSIBLE_SUFFIXES.contains f2.suffix = true)
    (ha : f1.data.head? = some ra)
    (hb : f2.data.head? = some rb) :
    (symmDiff (keysOf ra).toFinset (keysOf rb).toFinset ≠ ∅ →
      main argv = some (.exit1
        (symmDiff (keysOf ra).toFinset (keysOf rb).toFinset).card
        (symmDiff (keysOf ra).toFinset (keysOf rb).toFinset))) ∧
    (symmDiff (keysOf ra).toFinset (keysOf rb).toFinset = ∅ →
      check_table_structure_integrity f1.data f2.data = some (.ok ())) := by
  constructor
  · intro hne
    have hne' : (keysOf ra).toFinset ≠ (keysOf rb).toFinset := fun hE =>
      hne (by rw [hE, symmDiff_self, Finset.bot_eq_empty])
    have hcheck : check_table_structure_integrity f1.data f2.data
        = some (.error
          ((symmDiff (keysOf ra).toFinset (keysOf rb).toFinset).card,
           symmDiff (keysOf ra).toFinset (keysOf rb).toFinset)) := by
      simp [check_table_structure_integrity, ha, hb, hne']
    rw [main_two_files argv f1 f2 hargs hs1 hs2]
    simp [hcheck]
  · intro he
    have he' : (keysOf ra).toFinset = (keysOf rb).toFinset :=
      symmDiff_eq_bot.mp (by rw [he, Finset.bot_eq_empty])
    simp [check_table_structure_integrity, ha, hb, he']

/-- Witness for C5 at the spec's example: columns `{id, name}` against
`{id, email}` make `main` report the two mismatched columns and stop with
exit status 1. -/
theorem structure_validator_spec_witness :
    (symmDiff
        (keysOf [("id", Value.num 1), ("name", Value.str ("a"))]).toFinset
        (keysOf [("id", Value.num 1), ("email", Value.str ("b"))]).toFinset
      ≠ ∅) ∧
    (symmDiff
        (keysOf [("id", Value.num 1), ("name", Value.str ("a"))]).toFinset
        (keysOf [("id", Value.num 1), ("email", Value.str ("b"))]).toFinset).card
      = 2 ∧
    main [⟨true, ".csv", [[("id", Value.num 1), ("name", Value.str ("a"))]]⟩,
          ⟨true, ".csv", [[("id", Value.num 1), ("email", Value.str ("b"))]]⟩]
      = some (.exit1
        (symmDiff
          (keysOf [("id", Value.num 1), ("name", Value.str ("a"))]).toFinset
          (keysOf [("id", Value.num 1), ("email", Value.str ("b"))]).toFinset).card
        (symmDiff
          (keysOf [("id", Value.num 1), ("name", Value.str ("a"))]).toFinset
          (keysOf [("id", Value.num 1), ("email", Value.str ("b"))]).toFinset)) :=
  ⟨by decide, by decide,
    (structure_validator_spec
      [⟨true, ".csv", [[("id", Value.num 1), ("name", Value.str ("a"))]]⟩,
       ⟨true, ".csv", [[("id", Value.num 1), ("email", Value.str ("b"))]]⟩]
      ⟨true, ".csv", [[("id", Value.num 1), ("name", Value.str ("a"))]]⟩
      ⟨true, ".csv", [[("id", Value.num 1), ("email", Value.str ("b"))]]⟩
      [("id", Value.num 1), ("name", Value.str ("a"))]
      [("id", Value.num 1), ("email", Value.str ("b"))]
      (by decide) (by decide) (by decide) (by decide) (by decide)).1
      (by decide)⟩

/-! Part: Claim C6: behaviour on empty tables (header only, zero data rows) -/

/-- C6 fails on the code: an empty table (zero data rows) does NOT pass
structure validation — `check_table_structure_integrity` dies on `file_a[0]`
(modeled as `none`); the Positional Pair Extractor dies on `file_left[0]` when
its left operand is empty instead of returning empty sequences; the delta
builder dies on `common[0][0]`; and although the set difference of two empty
tables is indeed empty, `_write_csv` dies on `data[0]` for it.  This theorem
evaluates the code at those failing inputs. -/
theorem empty_table_crashes :
    check_table_structure_integrity ([] : List Row) ([] : List Row) = none ∧
    check_table_structure_integrity ([] : List Row)
      [[("id", Value.num 1)]] = none ∧
    extract_common_by_first_column ([] : List Row)
      [[("id", Value.num 1)]] = none ∧
    make_tab_5_analysis ([] : List Row) ([] : List Row) = none ∧
    extract_difference ([] : List Row) ([] : List Row) = [] ∧
    writeCsv ([] : List Row) = none :=
  ⟨rfl, rfl, rfl, rfl, rfl, rfl⟩

/-! Part: Claim C9: determinism of the pipeline -/

/-- C9: the outcome of `main` — including all five produced tables — is a
function of the two selected files' extensions and parsed contents alone; two
runs whose argument lists select files with the same extension and the same
table contents produce identical outcomes, so re-running the pipeline on
unchanged inputs reproduces the same five artifacts. -/
theorem pipeline_deterministic (argv argv' : List ArgFile)
    (f1 f2 g1 g2 : ArgFile)
    (h : extract_files_from_args argv = [f1, f2])
    (h' : extract_files_from_args argv' = [g1, g2])
    (hs1 : f1.suffix = g1.suffix) (hs2 : f2.suffix = g2.suffix)
    (h1 : f1.data = g1.data) (h2 : f2.data = g2.data) :
    main argv = main argv' := by
  have e1 : extract_data f1 = extract_data g1 := by
    unfold extract_data
    rw [hs1, h1]
  have e2 : extract_data f2 = extract_data g2 := by
    unfold extract_data
    rw [hs2, h2]
  rw [main_two_files_raw argv f1 f2 h, main_two_files_raw argv' g1 g2 h',
    e1, e2]

/-- Witness for C9: a second run with an extra (filtered-out) argument still
produces the identical outcome. -/
theorem pipeline_deterministic_witness :
    main [⟨true, ".csv", [[("id", Value.num 1)], [("id", Value.num 2)]]⟩,
          ⟨true, ".csv", [[("id", Value.num 1)], [("id", Value.num 3)]]⟩]
      = main [⟨false, ".exe", []⟩,
          ⟨true, ".csv", [[("id", Value.num 1)], [("id", Value.num 2)]]⟩,
          ⟨true, ".csv", [[("id", Value.num 1)], [("id", Value.num 3)]]⟩] :=
  pipeline_deterministic _ _
    ⟨true, ".csv", [[("id", Value.num 1)], [("id", Value.num 2)]]⟩
    ⟨true, ".csv", [[("id", Value.num 1)], [("id", Value.num 3)]]⟩
    ⟨true, ".csv", [[("id", Value.num 1)], [("id", Value.num 2)]]⟩
    ⟨true, ".csv", [[("id", Value.num 1)], [("id", Value.num 3)]]⟩
    (by decide) (by decide) (by decide) (by decide) (by decide) (by decide)

/-! Part: Claim C7: command-line filtering and exit statuses 0 and 2 -/

theorem extract_files_eq_filter (argv : List ArgFile) :
    extract_files_from_args argv
      = argv.filter fun f =>
          f.is_file && POSSIBLE_SUFFIXES.contains (lowerStr f.suffix) := by
  induction argv with
  | nil => rfl
  | cons a args ih =>
    by_cases h1 : a.is_file = true
    · by_cases h2 : POSSIBLE_SUFFIXES.contains (lowerStr a.suffix) = true
      · simp [extract_files_from_args, h1, h2, List.filter_cons, ih]
      · simp [extract_files_from_args, h1, h2, List.filter_cons, ih]
    · simp [extract_files_from_args, h1, List.filter_cons, ih]

theorem main_exit2_of_not_two (argv : List ArgFile)
    (h : (extract_files_from_args argv).length ≠ 2) :
    main argv = some .exit2 := by
  unfold main
  cases hf : extract_files_from_args argv with
  | nil => rfl
  | cons a bs =>
    cases bs with
    | nil => rfl
    | cons b cs =>
      cases cs with
      | nil => rw [hf] at h; simp at h
      | cons c ds => rfl

theorem zipMapFstSnd {α β : Type} :
    ∀ l : List (α × β), (l.map Prod.fst).zip (l.map Prod.snd) = l
  | [] => rfl
  | p :: ps => by simp [zipMapFstSnd ps]

theorem writeCsv_some (l : List Row) (h : l ≠ []) : writeCsv l = some l := by
  obtain ⟨x, xs, rfl⟩ := List.exists_cons_of_ne_nil h
  rfl

/-- C7 (amended): `main` silently drops every argument that is not an existing
file or whose extension, lower-cased, is neither `.xlsx` nor `.csv`, keeping
order; when the remaining count is not exactly 2 it exits with status 2 and no
output.  With exactly 2 valid files and matching column sets it exits with
status 0 PROVIDED the two retained extensions are exactly lower-case (an
upper-case variant passes the filter but crashes the reader's name-based
dispatch), both tables are non-empty, both directions' set differences are
non-empty and at least one index aligns — otherwise the run dies on an
uncaught exception instead of exiting 0 (see the counterexample
`main_identical_inputs_crash`). -/
theorem main_cli_spec (argv : List ArgFile) :
    extract_files_from_args argv
      = argv.filter (fun f =>
          f.is_file && POSSIBLE_SUFFIXES.contains (lowerStr f.suffix)) ∧
    ((extract_files_from_args argv).length ≠ 2 → main argv = some .exit2) ∧
    (∀ f1 f2 ks, extract_files_from_args argv = [f1, f2] →
      POSSIBLE_SUFFIXES.contains f1.suffix = true →
      POSSIBLE_SUFFIXES.contains f2.suffix = true →
      (∀ row ∈ f1.data, keysOf row = ks) →
      (∀ row ∈ f2.data, keysOf row = ks) →
      f1.data ≠ [] → f2.data ≠ [] → ks ≠ [] →
      extract_difference f1.data f2.data ≠ [] →
      extract_difference f2.data f1.data ≠ [] →
      (∃ cl cr, extract_common_by_first_column f1.data f2.data
          = some (cl, cr) ∧ cl ≠ []) →
      ∃ tabs, main argv = some (.exit0 tabs)) := by
  refine ⟨extract_files_eq_filter argv, main_exit2_of_not_two argv, ?_⟩
  intro f1 f2 ks hf hs1 hs2 hk1 hk2 hne1 hne2 hks hd1 hd2 hcm
  obtain ⟨ra, la, hfa⟩ := List.exists_cons_of_ne_nil hne1
  obtain ⟨rb, lb, hfb⟩ := List.exists_cons_of_ne_nil hne2
  obtain ⟨c0, ks', hksc⟩ := List.exists_cons_of_ne_nil hks
  have hraks : keysOf ra = ks :=
    hk1 ra (by rw [hfa]; exact List.mem_cons_self ra la)
  have hrbks : keysOf rb = ks :=
    hk2 rb (by rw [hfb]; exact List.mem_cons_self rb lb)
  have hhead1 : f1.data.head? = some ra := by rw [hfa]; rfl
  have hhead2 : f2.data.head? = some rb := by rw [hfb]; rfl
  have hcheck : check_table_structure_integrity f1.data f2.data
      = some (.ok ()) := by
    have hEq : (keysOf ra).toFinset = (keysOf rb).toFinset := by
      rw [hraks, hrbks]
    simp [check_table_structure_integrity, hhead1, hhead2, hEq]
  have hc0L : ∀ row ∈ f1.data, c0 ∈ keysOf row := fun row hr => by
    rw [hk1 row hr, hksc]; exact List.mem_cons_self c0 ks'
  have hc0R : ∀ row ∈ f2.data, c0 ∈ keysOf row := fun row hr => by
    rw [hk2 row hr, hksc]; exact List.mem_cons_self c0 ks'
  have hloop := extractCommonLoop_eq c0 f1.data f2.data fun p hp =>
    ⟨lookupCol_isSome_of_mem p.1 c0 (hc0L p.1 (List.of_mem_zip hp).1),
     lookupCol_isSome_of_mem p.2 c0 (hc0R p.2 (List.of_mem_zip hp).2)⟩
  have hc0head : (keysOf ra).head? = some c0 := by rw [hraks, hksc]; rfl
  set pairsC := (f1.data.zip f2.data).filter
    (fun p => valueAt p.1 c0 == valueAt p.2 c0) with hP
  have hcommon : extract_common_by_first_column f1.data f2.data
      = some (pairsC.map Prod.fst, pairsC.map Prod.snd) := by
    simp [extract_common_by_first_column, hhead1, hc0head, hloop]
  obtain ⟨cl, cr, hcm', hclne⟩ := hcm
  rw [hcommon] at hcm'
  simp only [Option.some.injEq, Prod.mk.injEq] at hcm'
  have hAne : pairsC.map Prod.fst ≠ [] := by rw [hcm'.1]; exact hclne
  have hPne : pairsC ≠ [] := fun hnil => hAne (by rw [hnil]; rfl)
  obtain ⟨p0, ps, hpc⟩ := List.exists_cons_of_ne_nil hPne
  have hmemPairs : ∀ p ∈ pairsC, p.1 ∈ f1.data ∧ p.2 ∈ f2.data := by
    intro p hp
    have hz : p ∈ f1.data.zip f2.data := List.mem_of_mem_filter (hP ▸ hp)
    exact List.of_mem_zip hz
  have hp0 : p0 ∈ pairsC := by rw [hpc]; exact List.mem_cons_self p0 ps
  obtain ⟨tE, htE, _⟩ := tab5Rows_eq (keysOf p0.1) pairsC (fun _ => 0)
    (fun p hp =>
      ⟨fun c hc => lookupCol_isSome_of_mem p.1 c (by
          rw [hk1 p.1 (hmemPairs p hp).1]
          rw [hk1 p0.1 (hmemPairs p0 hp0).1] at hc
          exact hc),
       fun c hc => lookupCol_isSome_of_mem p.2 c (by
          rw [hk2 p.2 (hmemPairs p hp).2]
          rw [hk1 p0.1 (hmemPairs p0 hp0).1] at hc
          exact hc)⟩)
  have hbuildhead : (pairsC.map Prod.fst).head? = some p0.1 := by
    rw [hpc]; rfl
  have hbuild : buildTab5 (pairsC.map Prod.fst) (pairsC.map Prod.snd)
      = some ⟨build_column_headers (keysOf p0.1),
          pairsC.map (fun p => deltaRowSpec (keysOf p0.1) p.1 p.2),
          totalsRowOf (keysOf p0.1) tE⟩ := by
    simp [buildTab5, hbuildhead, zipMapFstSnd, htE]
  have htab5 : make_tab_5_analysis f1.data f2.data
      = some ⟨build_column_headers (keysOf p0.1),
          pairsC.map (fun p => deltaRowSpec (keysOf p0.1) p.1 p.2),
          totalsRowOf (keysOf p0.1) tE⟩ := by
    simp [make_tab_5_analysis, hcommon, hbuild]
  have hrun : runTabs f1.data f2.data
      = some ⟨f1.data, f2.data, extract_difference f1.data f2.data,
          extract_difference f2.data f1.data,
          ⟨build_column_headers (keysOf p0.1),
            pairsC.map (fun p => deltaRowSpec (keysOf p0.1) p.1 p.2),
            totalsRowOf (keysOf p0.1) tE⟩⟩ := by
    simp [runTabs, writeCsv_some _ hne1, writeCsv_some _ hne2,
      writeCsv_some _ hd1, writeCsv_some _ hd2, htab5]
  refine ⟨⟨f1.data, f2.data, extract_difference f1.data f2.data,
      extract_difference f2.data f1.data,
      ⟨build_column_headers (keysOf p0.1),
        pairsC.map (fun p => deltaRowSpec (keysOf p0.1) p.1 p.2),
        totalsRowOf (keysOf p0.1) tE⟩⟩, ?_⟩
  rw [main_two_files argv f1 f2 hf hs1 hs2]
  simp [hcheck, hrun]

/-- C7's exit-0 part is false as stated, on two counts.  First: two valid
files with identical (hence matching) column sets make `main` die with an
uncaught `IndexError` (`none`) instead of exiting 0 — equal tables give
`out/tab_3.csv` an empty difference table and `_write_csv` crashes on
`data[0]`.  Second: an upper-case `.CSV` extension is accepted by the filter
(2 valid files) but the reader dispatch
`globals()["extract_data_from_" + suffix]` raises `KeyError`. -/
theorem main_identical_inputs_crash :
    (extract_files_from_args
        [⟨true, ".csv", [[("id", Value.num 1)]]⟩,
         ⟨true, ".csv", [[("id", Value.num 1)]]⟩]).length = 2 ∧
    main [⟨true, ".csv", [[("id", Value.num 1)]]⟩,
          ⟨true, ".csv", [[("id", Value.num 1)]]⟩] = none ∧
    (extract_files_from_args
        [⟨true, ".CSV", [[("id", Value.num 1)]]⟩,
         ⟨true, ".csv", [[("id", Value.num 2)]]⟩]).length = 2 ∧
    main [⟨true, ".CSV", [[("id", Value.num 1)]]⟩,
          ⟨true, ".csv", [[("id", Value.num 2)]]⟩] = none := by
  exact ⟨by decide, by decide, by decide, by decide⟩

/-- Witness for C7 on the spec's example tables (one invalid argument dropped,
both differences non-empty, every index aligned): exit status 0. -/
theorem main_cli_spec_witness :
    ∃ tabs,
      main [⟨false, ".txt", []⟩,
          ⟨true, ".csv", [[("id", Value.num 1), ("v", Value.str ("x"))],
                          [("id", Value.num 2), ("v", Value.str ("y"))]]⟩,
          ⟨true, ".xlsx", [[("id", Value.num 1), ("v", Value.str ("x"))],
                           [("id", Value.num 2), ("v", Value.str ("z"))]]⟩]
        = some (.exit0 tabs) :=
  (main_cli_spec
      [⟨false, ".txt", []⟩,
       ⟨true, ".csv", [[("id", Value.num 1), ("v", Value.str ("x"))],
                       [("id", Value.num 2), ("v", Value.str ("y"))]]⟩,
       ⟨true, ".xlsx", [[("id", Value.num 1), ("v", Value.str ("x"))],
                        [("id", Value.num 2), ("v", Value.str ("z"))]]⟩]).2.2
    ⟨true, ".csv", [[("id", Value.num 1), ("v", Value.str ("x"))],
                    [("id", Value.num 2), ("v", Value.str ("y"))]]⟩
    ⟨true, ".xlsx", [[("id", Value.num 1), ("v", Value.str ("x"))],
                     [("id", Value.num 2), ("v", Value.str ("z"))]]⟩
    ["id", "v"] (by decide) (by decide) (by decide) (by decide) (by decide)
    (by decide) (by decide) (by decide) (by decide) (by decide)
    ⟨[[("id", Value.num 1), ("v", Value.str ("x"))],
      [("id", Value.num 2), ("v", Value.str ("y"))]],
     [[("id", Value.num 1), ("v", Value.str ("x"))],
      [("id", Value.num 2), ("v", Value.str ("z"))]],
     by decide, by decide⟩

end MajdiExcel
